import Mathlib

/-!
Verification of the change-analysis and review-fusion engine of the
`pr-desc-cli` repository.

The development shallowly embeds the engine's source
(`src/analysis-engine.ts`, the registry in `src/utils.ts`, and the
parse/merge half of `src/pr-reviewer.ts`) into Lean.

JavaScript regular expressions used by the source are embedded through a
small, explicit matcher (`RItem` / `matchSeq` / `reTest`): every regex of
the source is a sequence of literal characters, quantified character
classes, word-boundary assertions and end anchors, optionally under a
top-level alternation, so this fragment covers them all.  Matching is
"does it match anywhere in the text", which is exactly how the source
consumes `String.prototype.match` results (presence, never position).

JavaScript numbers are modelled as exact rationals; naturals are used
where the source only ever holds non-negative integers (counts, clamped
metrics).  JS `Math.round x` is `round x` (both are `⌊x + 1/2⌋`) and
`Math.floor` is `Int.floor`.
-/

/-! ## Characters and JS character classes -/

/-- Left brace character (written by code point to keep string literals plain). -/
def lbrace : Char := Char.ofNat 123

/-- Right brace character. -/
def rbrace : Char := Char.ofNat 125

/-- Apostrophe character. -/
def apos : Char := Char.ofNat 39

/-- JS `\w`: ASCII letters, digits and underscore. -/
def isWordChar (c : Char) : Bool :=
  (Char.ofNat 97 ≤ c && c ≤ Char.ofNat 122) ||
  (Char.ofNat 65 ≤ c && c ≤ Char.ofNat 90) ||
  (Char.ofNat 48 ≤ c && c ≤ Char.ofNat 57) || c = Char.ofNat 95

/-- JS `\s` (restricted to the whitespace characters that can occur here). -/
def isJsSpace (c : Char) : Bool :=
  c = Char.ofNat 32 || c = Char.ofNat 9 || c = Char.ofNat 10 ||
  c = Char.ofNat 13 || c = Char.ofNat 11 || c = Char.ofNat 12

/-- JS `.` without the `s` flag: any character except a line terminator. -/
def isDotChar (c : Char) : Bool := !(c = Char.ofNat 10 || c = Char.ofNat 13)

/-- The class `[\x27"]` used by the hardcoded-secret rules. -/
def isQuoteChar (c : Char) : Bool := c = apos || c = Char.ofNat 34

/-! ## A tiny regex fragment sufficient for every regex of the source -/

/-- One item of a regex sequence: a literal character, a quantified
character class (`lo` to `hi` repetitions, `none` meaning unbounded), a
word boundary `\b`, or an end anchor `$` (`multiline` selects end-of-line
versus end-of-string semantics). -/
inductive RItem where
  | lit (c : Char)
  | cls (p : Char → Bool) (lo : Nat) (hi : Option Nat)
  | wb
  | eos (multiline : Bool)

/-- Decrement of an optional repetition bound. -/
def decHi : Option Nat → Option Nat
  | some h => some (h - 1)
  | none => none

/-- One fuelled matching step.  A class item either exits (when its
minimum is exhausted) or consumes one admissible character and stays,
with its bounds decremented; every step shrinks `ps.length + text.length`,
so `matchSeq` supplies that much fuel.  Recursion is structural in the
fuel so that the kernel can evaluate matches on concrete inputs. -/
def matchStep (ci : Bool) : Nat → List RItem → Option Char → List Char → Bool
  | 0, _, _, _ => false
  | _ + 1, [], _, _ => true
  | fuel + 1, .lit c :: ps, _, d :: rest =>
      (if ci then d.toLower = c.toLower else d = c) && matchStep ci fuel ps (some d) rest
  | _ + 1, .lit _ :: _, _, [] => false
  | fuel + 1, .wb :: ps, prev, rest =>
      let before := match prev with | some c => isWordChar c | none => false
      let after := match rest with | d :: _ => isWordChar d | [] => false
      (before != after) && matchStep ci fuel ps prev rest
  | fuel + 1, .eos m :: ps, prev, rest =>
      (match rest with | [] => true | d :: _ => m && d = Char.ofNat 10) &&
        matchStep ci fuel ps prev rest
  | fuel + 1, .cls p lo hi :: ps, prev, rest =>
      (decide (lo = 0) && matchStep ci fuel ps prev rest) ||
      (match rest with
       | [] => false
       | d :: rest2 =>
         (match hi with | some 0 => false | _ => true) && p d &&
           matchStep ci fuel (.cls p (lo - 1) (decHi hi) :: ps) (some d) rest2)

/-- Does the sequence `ps` match a prefix of `text`?  `ci` selects
case-insensitive literal comparison (the `i` flag); `prev` is the
character immediately before `text` in the full subject (for `\b`).
Classes backtrack over every admissible repetition count, which gives the
presence semantics of the JS engine. -/
def matchSeq (ci : Bool) (ps : List RItem) (prev : Option Char) (text : List Char) : Bool :=
  matchStep ci (ps.length + text.length + 1) ps prev text

/-- Does the alternation `alts` match anywhere in `s`?  Every start
position is tried together with its preceding character. -/
def reTest (ci : Bool) (alts : List (List RItem)) (s : String) : Bool :=
  let cs := s.data
  (List.range (cs.length + 1)).any fun i =>
    alts.any fun alt =>
      matchSeq ci alt (if i = 0 then none else (cs.take i).getLast? ) (cs.drop i)

/-- A JS regex of the source: its literal source text (the string that
keys the `patternsInfo` side table) and its embedding. -/
structure JsRegex where
  source : String
  ci : Bool
  alts : List (List RItem)

/-- Presence test for an embedded regex. -/
def JsRegex.test (r : JsRegex) (s : String) : Bool := reTest r.ci r.alts s

/-- Literal character sequence. -/
def lits (s : String) : List RItem := s.data.map RItem.lit

/-- The item `\s*`. -/
def ws0 : RItem := .cls isJsSpace 0 none

/-- The item `\s+`. -/
def ws1 : RItem := .cls isJsSpace 1 none

/-- The item `\w+`. -/
def wplus : RItem := .cls isWordChar 1 none

/-- The item `.*`. -/
def dotStar : RItem := .cls isDotChar 0 none

/-- The single-character class `[\x27"]`. -/
def quote1 : RItem := .cls isQuoteChar 1 (some 1)

/-! ## Data model (from `src/types.ts`) -/

/-- Issue/pattern category (`DetectedPattern["type"]`, `ReviewIssue["type"]`). -/
inductive IssueType where
  | security | performance | bug | style | maintainability
deriving DecidableEq, Repr

/-- Severity label. -/
inductive Severity where
  | low | medium | high | critical
deriving DecidableEq, Repr

/-- One changed file of the change set (`FileChange`). -/
structure FileChange where
  path : String
  status : String
  additions : Nat
  deletions : Nat
  patch : Option String
deriving DecidableEq, Repr

/-- Aggregate diff statistics (`GitStats`). -/
structure GitStats where
  insertions : Nat
  deletions : Nat
  filesChanged : Nat
deriving DecidableEq, Repr

/-- Commit metadata (`CommitInfo`); carried but never inspected by the engine. -/
structure CommitInfo where
  hash : String
  message : String
  author : String
  date : String
deriving DecidableEq, Repr

/-- The change set supplied by the git collaborator (`GitChanges`). -/
structure GitChanges where
  baseBranch : String
  currentBranch : String
  files : List FileChange
  commits : List CommitInfo
  stats : GitStats
deriving DecidableEq, Repr

/-- A deterministic finding (`DetectedPattern`). -/
structure DetectedPattern where
  type : IssueType
  severity : Severity
  pattern : String
  files : List String
  description : String
  suggestion : String
deriving DecidableEq, Repr

/-- Heuristic code metrics (`CodeMetrics`); the engine only ever stores
clamped non-negative integers here. -/
structure CodeMetrics where
  complexity : Nat
  testCoverage : Nat
  duplicateCode : Nat
  technicalDebt : Nat
  securityRisk : Nat
deriving DecidableEq, Repr

/-- The deterministic analysis artifact (`AnalysisResult`). -/
structure AnalysisResult where
  patterns : List DetectedPattern
  metrics : CodeMetrics
  riskScore : Nat
  recommendations : List String
deriving DecidableEq, Repr

/-- One review issue (`ReviewIssue`). -/
structure ReviewIssue where
  file : String
  line : Option ℚ
  type : IssueType
  severity : Severity
  message : String
  suggestion : Option String
  codeSnippet : Option String
deriving DecidableEq, Repr

/-- Review metrics (`ReviewMetrics`; `linesAnalyzed` is optional in the source). -/
structure ReviewMetrics where
  totalFiles : Nat
  linesAnalyzed : Option Nat
  issuesFound : Nat
  criticalIssues : Nat
  securityIssues : Nat
  performanceIssues : Nat
deriving DecidableEq, Repr

/-- The final fused artifact (`ReviewResult`). -/
structure ReviewResult where
  summary : String
  issues : List ReviewIssue
  suggestions : List String
  score : ℚ
  metrics : Option ReviewMetrics
deriving DecidableEq, Repr

/-! ## JS string helpers used by the source

These mirror the JS string primitives the source calls.  They are written
over character lists (rather than through the byte-indexed core `String`
functions) so that the kernel can evaluate them on concrete inputs. -/

/-- JS `String.prototype.includes`: `sub` occurs contiguously in `s`. -/
def strIncludes (s sub : String) : Bool := decide (sub.data <:+: s.data)

/-- JS `s.substring(0, 20)`. -/
def strTake20 (s : String) : String := String.mk (s.data.take 20)

/-- JS `String.prototype.startsWith`. -/
def strStartsWith (s pre : String) : Bool := pre.data.isPrefixOf s.data

/-- Splitting a character list at a separator character. -/
def splitChars (sep : Char) : List Char → List (List Char)
  | [] => [[]]
  | c :: cs =>
    let rest := splitChars sep cs
    if c = sep then [] :: rest
    else match rest with
      | r :: rs => (c :: r) :: rs
      | [] => [[c]]

/-- JS `String.prototype.split` with a one-character separator (the
source only ever splits on `"\n"` and on `"."`). -/
def strSplitOn (s : String) (sep : Char) : List String :=
  (splitChars sep s.data).map String.mk

/-- JS `String.prototype.trim` (the whitespace that can occur here). -/
def strTrim (s : String) : String :=
  String.mk (((s.data.dropWhile isJsSpace).reverse.dropWhile isJsSpace).reverse)

/-- JS `String.prototype.toLowerCase` (ASCII, as in the inputs at hand). -/
def strToLower (s : String) : String := String.mk (s.data.map Char.toLower)

/-! ## Pattern registry (from `src/utils.ts`, `reviewPatters`)

Sources are transcribed verbatim (the source texts key the `patternsInfo`
side table, so their exact spelling matters).  Several regexes of the
source contain a literal `$$` where parentheses were evidently intended;
`$` is an anchor in JS, and the embedding keeps the anchor semantics the
source actually has. -/

/-- Class `[^)]`. -/
def notRParen : RItem := .cls (fun c => !(c = ')')) 0 none

/-- Class `[^\x7d]*` (anything but a right brace). -/
def notRBrace : RItem := .cls (fun c => !(c = rbrace)) 0 none

/-- Class `[\s\S]` with the given minimum repetition count. -/
def anyChars (lo : Nat) : RItem := .cls (fun _ => true) lo none

/-- Security regexes (`reviewPatters.securityPatterns`). -/
def securityPatterns : List JsRegex := [
  { source := "eval\\s*\\(", ci := true,
    alts := [lits ("eval") ++ [ws0, .lit '(']] },
  { source := "innerHTML\\s*=", ci := true,
    alts := [lits ("innerHTML") ++ [ws0, .lit '=']] },
  { source := "document\\.write\\s*\\(", ci := true,
    alts := [lits ("document.write") ++ [ws0, .lit '(']] },
  { source := "\\$\\\x7b[^\x7d]*\\\x7d", ci := false,
    alts := [[.lit '$', .lit lbrace, notRBrace, .lit rbrace]] },
  { source := "SELECT\\s+.*\\s+FROM\\s+.*\\s+WHERE\\s+.*\\+", ci := true,
    alts := [lits ("SELECT") ++ [ws1, dotStar, ws1] ++ lits ("FROM") ++
      [ws1, dotStar, ws1] ++ lits ("WHERE") ++ [ws1, dotStar, .lit '+']] },
  { source := "password\\s*=\\s*[\x27\"]", ci := true,
    alts := [lits ("password") ++ [ws0, .lit '=', ws0, quote1]] },
  { source := "api[_-]?key\\s*=\\s*[\x27\"]", ci := true,
    alts := [lits ("api") ++ [.cls (fun c => c = '_' || c = '-') 0 (some 1)] ++
      lits ("key") ++ [ws0, .lit '=', ws0, quote1]] },
  { source := "secret\\s*=\\s*[\x27\"]", ci := true,
    alts := [lits ("secret") ++ [ws0, .lit '=', ws0, quote1]] },
  { source := "token\\s*=\\s*[\x27\"]", ci := true,
    alts := [lits ("token") ++ [ws0, .lit '=', ws0, quote1]] },
  { source := "crypto\\.createHash\\s*\\(\\s*[\x27\"]md5[\x27\"]", ci := true,
    alts := [lits ("crypto.createHash") ++ [ws0, .lit '(', ws0, quote1] ++
      lits ("md5") ++ [quote1]] },
  { source := "Math\\.random\\s*$$\\s*$$", ci := true,
    alts := [lits ("Math.random") ++ [ws0, .eos false, ws0, .eos false]] }]

/-- Performance regexes (`reviewPatters.performancePatterns`). -/
def performancePatterns : List JsRegex := [
  { source := "for\\s*$$[^)]*$$\\s*\x7b[^\x7d]*for\\s*\\(", ci := true,
    alts := [lits ("for") ++ [ws0, .eos false, notRParen, .eos false, ws0,
      .lit lbrace, notRBrace] ++ lits ("for") ++ [ws0, .lit '(']] },
  { source := "while\\s*$$[^)]*$$\\s*\x7b[^\x7d]*while\\s*\\(", ci := true,
    alts := [lits ("while") ++ [ws0, .eos false, notRParen, .eos false, ws0,
      .lit lbrace, notRBrace] ++ lits ("while") ++ [ws0, .lit '(']] },
  { source := "\\.map\\s*$$[^)]*$$\\.map\\s*\\(", ci := true,
    alts := [[.lit '.'] ++ lits ("map") ++ [ws0, .eos false, notRParen,
      .eos false, .lit '.'] ++ lits ("map") ++ [ws0, .lit '(']] },
  { source := "JSON\\.parse\\s*\\(\\s*JSON\\.stringify", ci := true,
    alts := [lits ("JSON.parse") ++ [ws0, .lit '(', ws0] ++ lits ("JSON.stringify")] },
  { source := "new\\s+RegExp\\s*\\(", ci := true,
    alts := [lits ("new") ++ [ws1] ++ lits ("RegExp") ++ [ws0, .lit '(']] },
  { source := "console\\.log\\s*\\(", ci := true,
    alts := [lits ("console.log") ++ [ws0, .lit '(']] },
  { source := "debugger\\s*;", ci := true,
    alts := [lits ("debugger") ++ [ws0, .lit ';']] },
  { source := "alert\\s*\\(", ci := true,
    alts := [lits ("alert") ++ [ws0, .lit '(']] }]

/-- Bug regexes (`reviewPatters.bugPatterns`).  The last two carry the
`m` flag, so their `$` anchors are end-of-line. -/
def bugPatterns : List JsRegex := [
  { source := "==\\s*null", ci := true,
    alts := [lits ("==") ++ [ws0] ++ lits ("null")] },
  { source := "!=\\s*null", ci := true,
    alts := [lits ("!=") ++ [ws0] ++ lits ("null")] },
  { source := "==\\s*undefined", ci := true,
    alts := [lits ("==") ++ [ws0] ++ lits ("undefined")] },
  { source := "!=\\s*undefined", ci := true,
    alts := [lits ("!=") ++ [ws0] ++ lits ("undefined")] },
  { source := "\\+\\+\\w+\\[", ci := true,
    alts := [[.lit '+', .lit '+', wplus, .lit '[']] },
  { source := "\\w+\\[\\+\\+", ci := true,
    alts := [[wplus, .lit '[', .lit '+', .lit '+']] },
  { source := "catch\\s*$$[^)]*$$\\s*\x7b\\s*\x7d", ci := true,
    alts := [lits ("catch") ++ [ws0, .eos false, notRParen, .eos false, ws0,
      .lit lbrace, ws0, .lit rbrace]] },
  { source := "if\\s*$$[^)]*$$\\s*;\\s*$", ci := false,
    alts := [lits ("if") ++ [ws0, .eos true, notRParen, .eos true, ws0,
      .lit ';', ws0, .eos true]] },
  { source := "else\\s*;\\s*$", ci := false,
    alts := [lits ("else") ++ [ws0, .lit ';', ws0, .eos true]] }]

/-- Style regexes (`reviewPatters.stylePatterns`).  Lazy repetition
(`?` after a counted class) does not change match presence, so the
embedding drops it. -/
def stylePatterns : List JsRegex := [
  { source := "function\\s+\\w+\\s*$$[^)]*$$\\s*\x7b[\\s\\S]\x7b500,\x7d?\x7d", ci := true,
    alts := [lits ("function") ++ [ws1, wplus, ws0, .eos false, notRParen,
      .eos false, ws0, .lit lbrace, anyChars 500, .lit rbrace]] },
  { source := "class\\s+\\w+\\s*\x7b[\\s\\S]\x7b1000,\x7d?\x7d", ci := true,
    alts := [lits ("class") ++ [ws1, wplus, ws0, .lit lbrace, anyChars 1000,
      .lit rbrace]] },
  { source := "\\/\\*[\\s\\S]*?\\*\\/", ci := false,
    alts := [[.lit '/', .lit '*', anyChars 0, .lit '*', .lit '/']] },
  { source := "\\/\\/\\s*(TODO|FIXME|HACK|XXX)", ci := true,
    alts := [[.lit '/', .lit '/', ws0] ++ lits ("TODO"),
             [.lit '/', .lit '/', ws0] ++ lits ("FIXME"),
             [.lit '/', .lit '/', ws0] ++ lits ("HACK"),
             [.lit '/', .lit '/', ws0] ++ lits ("XXX")] },
  { source := "var\\s+", ci := true,
    alts := [lits ("var") ++ [ws1]] }]

/-- Descriptive metadata of one registry rule. -/
structure PatternInfo where
  severity : Severity
  description : String
  suggestion : String
deriving DecidableEq, Repr

/-- `patternsInfo.security` from `src/utils.ts`, keyed by regex source text. -/
def securityPatternInfo : List (String × PatternInfo) := [
  ("eval\\s*\\(",
   { severity := .critical,
     description := "Use of eval() can lead to code injection vulnerabilities",
     suggestion := "Avoid eval() and use safer alternatives like JSON.parse() for data" }),
  ("innerHTML\\s*=",
   { severity := .high,
     description := "Direct innerHTML assignment can lead to XSS vulnerabilities",
     suggestion := "Use textContent or sanitize HTML content before assignment" }),
  ("password\\s*=\\s*[\x27\"]",
   { severity := .critical,
     description := "Hardcoded password detected in source code",
     suggestion := "Use environment variables or secure configuration for passwords" })]

/-- `patternsInfo.bug`. -/
def bugPatternInfo : List (String × PatternInfo) := [
  ("==\\s*null",
   { severity := .medium,
     description := "Loose equality with null can cause unexpected behavior",
     suggestion := "Use strict equality (===) for null checks" }),
  ("catch\\s*$$[^)]*$$\\s*\x7b\\s*\x7d",
   { severity := .high,
     description := "Empty catch blocks hide errors and make debugging difficult",
     suggestion := "Add proper error handling or at least log the error" })]

/-- `patternsInfo.performance`. -/
def performancePatternInfo : List (String × PatternInfo) := [
  ("for\\s*$$[^)]*$$\\s*\x7b[^\x7d]*for\\s*\\(",
   { severity := .medium,
     description := "Nested loops can cause performance issues with large datasets",
     suggestion := "Consider optimizing algorithm or using more efficient data structures" }),
  ("console\\.log\\s*\\(",
   { severity := .low,
     description := "Console logs should be removed from production code",
     suggestion := "Remove console.log statements or use proper logging framework" })]

/-- `patternsInfo.style`. -/
def stylePatternInfo : List (String × PatternInfo) := [
  ("var\\s+",
   { severity := .low,
     description := "var has function scope and can cause confusion",
     suggestion := "Use let or const for block-scoped variables" }),
  ("\\/\\/\\s*(TODO|FIXME|HACK|XXX)",
   { severity := .low,
     description := "Technical debt comment indicates incomplete work",
     suggestion := "Address the TODO/FIXME or create a proper issue to track it" })]

namespace ReviewAnalysisEngine

/-! ## Pattern detection (from `src/analysis-engine.ts`) -/

/-- The added-code text of `detectPatterns`: lines of the patch that begin
with `+` but not `+++`, each with the leading `+` stripped, newline-joined
(this is the Diff Normalizer of the specification). -/
def addedCodeOf (patch : String) : String :=
  String.intercalate ("\n")
    (((strSplitOn patch (Char.ofNat 10)).filter fun line =>
        strStartsWith line ("+") && !strStartsWith line ("+++")).map fun line => line.drop 1)

/-- `checkPatterns`: one `DetectedPattern` per registry regex that matches
anywhere in `code`, with metadata looked up by the regex source text and a
generic fallback for unregistered rules. -/
def checkPatterns (code : String) (filePath : String) (patterns : List JsRegex)
    (type : IssueType) (patternInfo : List (String × PatternInfo)) : List DetectedPattern :=
  patterns.filterMap fun pat =>
    if pat.test code then
      let info := (patternInfo.lookup pat.source).getD
        { severity := .medium,
          description := "Detected pattern: " ++ pat.source,
          suggestion := "Review this pattern for potential issues" }
      some { type := type, severity := info.severity, pattern := pat.source,
             files := [filePath], description := info.description,
             suggestion := info.suggestion }
    else none

/-- The added-code text used by the file-type specializers
(`analyzeJavaScriptFile`, `analyzeConfigFile`): lines that begin with `+`
are kept — including the `+++` file-header line — and the leading `+` is
not stripped; absent patch gives empty text. -/
def specializerText (patch : Option String) : String :=
  match patch with
  | some p =>
      String.intercalate ("\n")
        ((strSplitOn p (Char.ofNat 10)).filter fun line => strStartsWith line ("+"))
  | none => ""

/-- The regex `\w+\.\w+\s*=` of the React state-mutation check. -/
def mutationRe : JsRegex :=
  { source := "\\w+\\.\\w+\\s*=", ci := false,
    alts := [[wplus, .lit '.', wplus, ws0, .lit '=']] }

/-- `analyzeReactFile`: missing list key and direct state mutation. -/
def analyzeReactFile (file : FileChange) (addedCode : String) : List DetectedPattern :=
  (if strIncludes addedCode (".map(") && !strIncludes addedCode ("key=") then
    [{ type := .bug, severity := .medium, pattern := "missing-react-key",
       files := [file.path],
       description := "Missing key prop in React list rendering",
       suggestion := "Add unique key prop to list items" }]
  else []) ++
  (if strIncludes addedCode ("useState") && mutationRe.test addedCode then
    [{ type := .bug, severity := .high, pattern := "direct-state-mutation",
       files := [file.path],
       description := "Potential direct state mutation in React",
       suggestion := "Use state setter functions instead of direct mutation" }]
  else [])

/-- The JavaScript/TypeScript checks as a function of the added-code text
they are given (factored out to state which text the source feeds them). -/
def javaScriptChecks (addedCode : String) (file : FileChange) : List DetectedPattern :=
  (if strIncludes addedCode ("await") && !strIncludes addedCode ("async") then
    [{ type := .bug, severity := .high, pattern := "await-without-async",
       files := [file.path],
       description := "Using await without async function declaration",
       suggestion := "Ensure functions using await are declared as async" }]
  else []) ++
  (if strIncludes addedCode (".then(") && !strIncludes addedCode (".catch(") then
    [{ type := .bug, severity := .medium, pattern := "promise-without-catch",
       files := [file.path],
       description := "Promise chain without error handling",
       suggestion := "Add .catch() to handle promise rejections" }]
  else []) ++
  (if strIncludes file.path (".tsx") || strIncludes file.path (".jsx") then
    analyzeReactFile file addedCode
  else [])

/-- `analyzeJavaScriptFile`, with its own inline extraction of the added
code exactly as in the source (filter on `+` only, `+` retained). -/
def analyzeJavaScriptFile (file : FileChange) : List DetectedPattern :=
  let addedCode :=
    match file.patch with
    | some p =>
        String.intercalate ("\n")
          ((strSplitOn p (Char.ofNat 10)).filter fun line => strStartsWith line ("+"))
    | none => ""
  javaScriptChecks addedCode file

/-- The regex `(password|secret|key|token)\s*[:=]\s*[\x27"]\w+` of the
configuration-file secret check. -/
def configSecretRe : JsRegex :=
  { source := "(password|secret|key|token)\\s*[:=]\\s*[\x27\"]\\w+", ci := true,
    alts :=
      [lits ("password"), lits ("secret"), lits ("key"), lits ("token")].map
        fun w => w ++ [ws0, .cls (fun c => c = ':' || c = '=') 1 (some 1), ws0, quote1, wplus] }

/-- The configuration-file check as a function of the text it is given. -/
def configChecks (addedCode : String) (file : FileChange) : List DetectedPattern :=
  if configSecretRe.test addedCode then
    [{ type := .security, severity := .critical, pattern := "hardcoded-secrets",
       files := [file.path],
       description := "Hardcoded secrets in configuration file",
       suggestion := "Use environment variables for sensitive data" }]
  else []

/-- `analyzeConfigFile`, with its own inline extraction as in the source. -/
def analyzeConfigFile (file : FileChange) : List DetectedPattern :=
  let addedCode :=
    match file.patch with
    | some p =>
        String.intercalate ("\n")
          ((strSplitOn p (Char.ofNat 10)).filter fun line => strStartsWith line ("+"))
    | none => ""
  configChecks addedCode file

/-- The lower-cased extension: `file.path.split(".").pop()?.toLowerCase()`. -/
def fileExtension (path : String) : String :=
  strToLower (((strSplitOn path (Char.ofNat 46)).getLast?).getD (""))

/-- `analyzeFileSpecific`: the dispatch of the current engine covers only
the JavaScript family and configuration files. -/
def analyzeFileSpecific (file : FileChange) : List DetectedPattern :=
  match file.patch with
  | none => []
  | some _ =>
    let extension := fileExtension file.path
    (if ["ts", "tsx", "js", "jsx"].contains extension then analyzeJavaScriptFile file else []) ++
    (if ["json", "yaml", "yml", "env"].contains extension then analyzeConfigFile file else [])

/-- `detectPatterns`: per file with a patch, the four registry categories
over the normalized added code, then the file-specific analysis. -/
def detectPatterns (changes : GitChanges) : List DetectedPattern :=
  changes.files.flatMap fun file =>
    match file.patch with
    | none => []
    | some patch =>
      let addedCode := addedCodeOf patch
      checkPatterns addedCode file.path securityPatterns .security securityPatternInfo ++
      checkPatterns addedCode file.path performancePatterns .performance performancePatternInfo ++
      checkPatterns addedCode file.path bugPatterns .bug bugPatternInfo ++
      checkPatterns addedCode file.path stylePatterns .style stylePatternInfo ++
      analyzeFileSpecific file

/-! ## Metrics (from `src/analysis-engine.ts`) -/

/-- The regex `\b(if|else|while|for|switch|case|catch|&&|\|\|)\b` (no `i` flag). -/
def decisionRe : JsRegex :=
  { source := "\\b(if|else|while|for|switch|case|catch|&&|\\|\\|)\\b", ci := false,
    alts := [lits ("if"), lits ("else"), lits ("while"), lits ("for"), lits ("switch"),
             lits ("case"), lits ("catch"), lits ("&&"), lits ("||")].map
      fun w => [RItem.wb] ++ w ++ [RItem.wb] }

/-- The regex `\b(TODO|FIXME|HACK|XXX)\b` with the `i` flag. -/
def debtCommentRe : JsRegex :=
  { source := "\\b(TODO|FIXME|HACK|XXX)\\b", ci := true,
    alts := [lits ("TODO"), lits ("FIXME"), lits ("HACK"), lits ("XXX")].map
      fun w => [RItem.wb] ++ w ++ [RItem.wb] }

/-- The regex `[()]\x7b3,\x7d`: three or more parenthesis characters in a row. -/
def parenRunRe : JsRegex :=
  { source := "[()]\x7b3,\x7d", ci := false,
    alts := [[.cls (fun c => c = '(' || c = ')') 3 none]] }

/-- The regex `eval\s*\(|innerHTML\s*=|document\.write` with the `i` flag. -/
def highRiskRe : JsRegex :=
  { source := "eval\\s*\\(|innerHTML\\s*=|document\\.write", ci := true,
    alts := [lits ("eval") ++ [ws0, .lit '('],
             lits ("innerHTML") ++ [ws0, .lit '='],
             lits ("document.write")] }

/-- The regex `password|secret|token|key` with the `i` flag. -/
def medRiskRe : JsRegex :=
  { source := "password|secret|token|key", ci := true,
    alts := [lits ("password"), lits ("secret"), lits ("token"), lits ("key")] }

/-- The regex `http:|localhost` with the `i` flag. -/
def lowRiskRe : JsRegex :=
  { source := "http:|localhost", ci := true,
    alts := [lits ("http:"), lits ("localhost")] }

/-- `calculateComplexity`: base 1 per call, plus 1 per added line whose
trimmed text (after dropping the first character) contains a decision point. -/
def calculateComplexity (lines : List String) : Nat :=
  1 + (lines.filter fun line => decisionRe.test (strTrim (line.drop 1))).length

/-- `calculateTechnicalDebt`: +5 per debt-comment line, +1 per line longer
than 120 characters, +2 per line with a run of three or more parentheses. -/
def calculateTechnicalDebt (lines : List String) : Nat :=
  lines.foldl (fun debt line =>
    let cleanLine := strTrim (line.drop 1)
    let debt := if debtCommentRe.test cleanLine then debt + 5 else debt
    let debt := if 120 < cleanLine.length then debt + 1 else debt
    if parenRunRe.test cleanLine then debt + 2 else debt) 0

/-- `calculateSecurityRisk`: +10 per high-risk line, +5 per medium-risk
line, +1 per low-risk line. -/
def calculateSecurityRisk (lines : List String) : Nat :=
  lines.foldl (fun risk line =>
    let cleanLine := strTrim (line.drop 1)
    let risk := if highRiskRe.test cleanLine then risk + 10 else risk
    let risk := if medRiskRe.test cleanLine then risk + 5 else risk
    if lowRiskRe.test cleanLine then risk + 1 else risk) 0

/-- `calculateMetrics`: accumulate per-file contributions over added
lines (`+`-prefixed, header included), then clamp every total to 100. -/
def calculateMetrics (changes : GitChanges) : CodeMetrics :=
  let totals := changes.files.foldl (fun (acc : CodeMetrics) file =>
    match file.patch with
    | none => acc
    | some patch =>
      let addedLines := (strSplitOn patch (Char.ofNat 10)).filter fun line => strStartsWith line ("+")
      { complexity := acc.complexity + calculateComplexity addedLines,
        testCoverage := acc.testCoverage +
          (if strIncludes file.path ("test") || strIncludes file.path ("spec") then
            addedLines.length else 0),
        duplicateCode := acc.duplicateCode,
        technicalDebt := acc.technicalDebt + calculateTechnicalDebt addedLines,
        securityRisk := acc.securityRisk + calculateSecurityRisk addedLines })
    ⟨0, 0, 0, 0, 0⟩
  { complexity := min 100 totals.complexity,
    testCoverage := min 100 totals.testCoverage,
    duplicateCode := min 100 totals.duplicateCode,
    technicalDebt := min 100 totals.technicalDebt,
    securityRisk := min 100 totals.securityRisk }

/-! ## Risk scoring and recommendations -/

/-- The severity weights of `calculateRiskScore`. -/
def severityWeight : Severity → Nat
  | .critical => 25
  | .high => 15
  | .medium => 8
  | .low => 3

/-- The pattern-based part of the risk score. -/
def patternScore (patterns : List DetectedPattern) : Nat :=
  patterns.foldl (fun acc p => acc + severityWeight p.severity) 0

/-- `calculateRiskScore`: weighted pattern sum plus `0.2/0.3/0.5`-weighted
metrics, rounded (`Math.round` is `⌊x + 1/2⌋`) and clamped above by 100.
The sum is non-negative, so the result is returned as a natural. -/
def calculateRiskScore (patterns : List DetectedPattern) (metrics : CodeMetrics) : Nat :=
  (min 100 (round ((patternScore patterns : ℚ) + (metrics.complexity : ℚ) * 0.2 +
    (metrics.technicalDebt : ℚ) * 0.3 + (metrics.securityRisk : ℚ) * 0.5))).toNat

/-- `generateRecommendations`: six independent threshold rules. -/
def generateRecommendations (patterns : List DetectedPattern) (metrics : CodeMetrics) : List String :=
  let securityIssues := (patterns.filter fun p => p.type == IssueType.security).length
  let performanceIssues := (patterns.filter fun p => p.type == IssueType.performance).length
  let bugIssues := (patterns.filter fun p => p.type == IssueType.bug).length
  (if 0 < securityIssues then
    ["Address " ++ toString securityIssues ++ " security issue(s) before merging"] else []) ++
  (if 2 < performanceIssues then
    ["Consider performance optimization for better user experience"] else []) ++
  (if 0 < bugIssues then
    ["Fix " ++ toString bugIssues ++ " potential bug(s) to improve code reliability"] else []) ++
  (if 15 < metrics.complexity then
    ["Consider breaking down complex functions for better maintainability"] else []) ++
  (if 20 < metrics.technicalDebt then
    ["Address technical debt comments and code quality issues"] else []) ++
  (if 30 < metrics.securityRisk then
    ["Conduct thorough security review before deployment"] else [])

/-- `analyzeChanges`: the full deterministic analysis (synchronous and pure;
the `async` of the source is vacuous). -/
def analyzeChanges (changes : GitChanges) : AnalysisResult :=
  let patterns := detectPatterns changes
  let metrics := calculateMetrics changes
  { patterns := patterns, metrics := metrics,
    riskScore := calculateRiskScore patterns metrics,
    recommendations := generateRecommendations patterns metrics }

end ReviewAnalysisEngine

/-! ## Review fusion (from `src/pr-reviewer.ts`)

The external review text is first cut down by the regex match
`response.match of /\x7b[sS]*\x7d/` (first `\x7b` to last `\x7d`) and then
decoded by `JSON.parse`.  `JSON.parse` is a JS builtin: it is modelled as
an oracle `decode : String → Option Json` supplied to the parse step
(`none` standing for a thrown `SyntaxError`); theorems quantify over it.
JSON values are the inductive `Json`. -/

/-- A JSON value.  Numbers are exact rationals (JSON has no `NaN` or
infinities, and `JSON.parse` cannot produce them). -/
inductive Json where
  | null
  | bool (b : Bool)
  | num (q : ℚ)
  | str (s : String)
  | arr (elems : List Json)
  | obj (fields : List (String × Json))

/-- Property access on a decoded value: `none` is JS `undefined` (missing
property or access on a non-object).  Duplicate keys cannot arise from
`JSON.parse` results used in the claims. -/
def Json.lookup : Json → String → Option Json
  | .obj fields, key => List.lookup key fields
  | _, _ => none

/-- JS truthiness of a possibly-undefined value. -/
def jsTruthy : Option Json → Bool
  | none => false
  | some .null => false
  | some (.bool b) => b
  | some (.num q) => decide (q ≠ 0)
  | some (.str s) => decide (s ≠ "")
  | some (.arr _) => true
  | some (.obj _) => true

/-- Strict equality of a possibly-undefined payload field with a string
literal (`v === "..."` in the source): true only for that exact string. -/
def jsFieldIsStr (o : Option Json) (val : String) : Bool :=
  match o with
  | some (.str s) => decide (s = val)
  | _ => false

/-- `Array.isArray` of a possibly-undefined value. -/
def jsIsArray : Option Json → Bool
  | some (.arr _) => true
  | _ => false

/-- The string a JS primitive renders as where the source stores an
untyped payload field into a string-typed slot or interpolates it.  The
claims only ever exercise it on strings, where it is the identity. -/
def jsDisplayString : Json → String
  | .null => "null"
  | .bool b => toString b
  | .num q => toString q
  | .str s => s
  | .arr _ => ""
  | .obj _ => "[object Object]"

namespace PrReviewer

/-- The match of `/\x7b[\s\S]*\x7d/` against the response: the substring
from the first `\x7b` to the last `\x7d`, provided such a pair exists. -/
def extractJsonCandidate (s : String) : Option String :=
  let cs := s.data
  match cs.findIdx? (fun c => c = lbrace) with
  | none => none
  | some i =>
    match cs.reverse.findIdx? (fun c => c = rbrace) with
    | none => none
    | some rj =>
      let j := cs.length - 1 - rj
      if i < j then some (String.mk ((cs.drop i).take (j - i + 1))) else none

/-- `validateIssue`: coercion of one raw payload issue into the
`ReviewIssue` shape, with the source's defaults (`unknown` file, known
type/severity lists, placeholder message, pass-through optionals). -/
def validateIssue (issue : Json) : ReviewIssue :=
  { file :=
      match issue.lookup ("file") with
      | some v => if jsTruthy (some v) then jsDisplayString v else "unknown"
      | none => "unknown",
    line :=
      match issue.lookup ("line") with
      | some (.num q) => some q
      | _ => none,
    type :=
      match issue.lookup ("type") with
      | some (.str "security") => .security
      | some (.str "performance") => .performance
      | some (.str "bug") => .bug
      | some (.str "style") => .style
      | some (.str "maintainability") => .maintainability
      | _ => .maintainability,
    severity :=
      match issue.lookup ("severity") with
      | some (.str "low") => .low
      | some (.str "medium") => .medium
      | some (.str "high") => .high
      | some (.str "critical") => .critical
      | _ => .medium,
    message :=
      match issue.lookup ("message") with
      | some v => if jsTruthy (some v) then jsDisplayString v else "Issue description not provided"
      | none => "Issue description not provided",
    suggestion := (issue.lookup ("suggestion")).map jsDisplayString,
    codeSnippet := (issue.lookup ("codeSnippet")).map jsDisplayString }

/-- `calculateMetrics` of `pr-reviewer.ts`: counts over the raw parsed
issue array plus change-set totals. -/
def calculateMetrics (issues : List Json) (changes : GitChanges) : ReviewMetrics :=
  { totalFiles := changes.files.length,
    linesAnalyzed := some (changes.stats.insertions + changes.stats.deletions),
    issuesFound := issues.length,
    criticalIssues :=
      (issues.filter fun i => jsFieldIsStr (i.lookup ("severity")) ("critical")).length,
    securityIssues :=
      (issues.filter fun i => jsFieldIsStr (i.lookup ("type")) ("security")).length,
    performanceIssues :=
      (issues.filter fun i => jsFieldIsStr (i.lookup ("type")) ("performance")).length }

/-- The reading of a truthy payload `metrics` object into the typed
`ReviewMetrics` slot (numeric fields read as naturals; no claim depends
on this pass-through corner). -/
def decodePayloadMetrics (v : Json) : ReviewMetrics :=
  let asNat := fun (o : Option Json) =>
    match o with
    | some (.num q) => (⌊q⌋).toNat
    | _ => 0
  { totalFiles := asNat (v.lookup ("totalFiles")),
    linesAnalyzed :=
      match v.lookup ("linesAnalyzed") with
      | some (.num q) => some ((⌊q⌋).toNat)
      | _ => none,
    issuesFound := asNat (v.lookup ("issuesFound")),
    criticalIssues := asNat (v.lookup ("criticalIssues")),
    securityIssues := asNat (v.lookup ("securityIssues")),
    performanceIssues := asNat (v.lookup ("performanceIssues")) }

/-- The fixed fallback result of the `catch` branch of
`parseReviewResponse`; this is the only exit of every failure path. -/
def fallbackReview (changes : GitChanges) : ReviewResult :=
  { summary := "Review completed, but response parsing failed. Manual review recommended.",
    issues := [],
    suggestions := [
      "Consider running the review again with a different AI model",
      "Manually review the changes for potential issues",
      "Check the AI response format and model compatibility"],
    score := 5,
    metrics := some
      { totalFiles := changes.files.length,
        linesAnalyzed := some (changes.stats.insertions + changes.stats.deletions),
        issuesFound := 0,
        criticalIssues := 0,
        securityIssues := 0,
        performanceIssues := 0 } }

/-- `typeof v === "number"` of a possibly-undefined value. -/
def jsIsNum : Option Json → Bool
  | some (.num _) => true
  | _ => false

/-- The elements of an array value (only read under an `Array.isArray`
guard, so the default is never reached). -/
def asArr : Option Json → List Json
  | some (.arr elems) => elems
  | _ => []

/-- The rational of a numeric value (only read under a `typeof number`
guard, so the default is never reached). -/
def asNum : Option Json → ℚ
  | some (.num q) => q
  | _ => 0

/-- The required-field validation of `parseReviewResponse`, one boolean
guard exactly as in the source: `!parsed.summary` (truthiness, not
string-ness), `Array.isArray` on `issues` and `suggestions`, and
`typeof parsed.score === "number"`. -/
def validPayload (parsed : Json) : Bool :=
  jsTruthy (parsed.lookup ("summary")) &&
  jsIsArray (parsed.lookup ("issues")) &&
  jsIsArray (parsed.lookup ("suggestions")) &&
  jsIsNum (parsed.lookup ("score"))

/-- `parseReviewResponse`: extract the brace-delimited candidate, decode
it through the `JSON.parse` oracle, validate, clamp the score into
`[1,10]`, and fall back to the fixed result on any failure.  The function
is total: no path throws. -/
def parseReviewResponse (decode : String → Option Json) (response : String)
    (changes : GitChanges) : ReviewResult :=
  match (extractJsonCandidate response).bind decode with
  | none => fallbackReview changes
  | some parsed =>
    if validPayload parsed then
      { summary := jsDisplayString ((parsed.lookup ("summary")).getD .null),
        issues := (asArr (parsed.lookup ("issues"))).map validateIssue,
        suggestions := (asArr (parsed.lookup ("suggestions"))).map jsDisplayString,
        score := max 1 (min 10 (asNum (parsed.lookup ("score")))),
        metrics := some
          (if jsTruthy (parsed.lookup ("metrics")) then
            decodePayloadMetrics ((parsed.lookup ("metrics")).getD .null)
          else calculateMetrics (asArr (parsed.lookup ("issues"))) changes) }
    else fallbackReview changes

/-! ## The merge step (`mergeAnalysisResults`) -/

/-- Projection of a deterministic pattern into a review issue
(`file = pattern.files[0] || "unknown"`, message from the description). -/
def projectIssue (pattern : DetectedPattern) : ReviewIssue :=
  { file :=
      match pattern.files.head? with
      | some f => if f = "" then "unknown" else f
      | none => "unknown",
    line := none,
    type := pattern.type,
    severity := pattern.severity,
    message := pattern.description,
    suggestion := some pattern.suggestion,
    codeSnippet := none }

/-- The duplicate test of the merge loop: same file, same type, and the
existing message contains the first 20 characters of the incoming one. -/
def isDuplicateOf (issues : List ReviewIssue) (preIssue : ReviewIssue) : Bool :=
  issues.any fun issue =>
    decide (issue.file = preIssue.file) && decide (issue.type = preIssue.type) &&
      strIncludes issue.message (strTake20 preIssue.message)

/-- The merge loop over projected issues: append each unless it is a
duplicate of something already accumulated. -/
def mergeIssueList (base : List ReviewIssue) (preIssues : List ReviewIssue) : List ReviewIssue :=
  preIssues.foldl (fun acc p => if isDuplicateOf acc p then acc else acc ++ [p]) base

/-- `mergeAnalysisResults`: project, deduplicate, merge suggestions,
recompute issue counts (with `totalFiles` taken from the complexity
metric whenever it is positive), and adjust the score by the risk. -/
def mergeAnalysisResults (aiResult : ReviewResult) (preAnalysis : AnalysisResult) : ReviewResult :=
  let preAnalysisIssues := preAnalysis.patterns.map projectIssue
  let allIssues := mergeIssueList aiResult.issues preAnalysisIssues
  let allSuggestions := aiResult.suggestions ++
    preAnalysis.recommendations.filter fun r =>
      !(aiResult.suggestions.any fun sug => strIncludes sug (strTake20 r))
  let enhancedMetrics : ReviewMetrics :=
    { totalFiles :=
        if 0 < preAnalysis.metrics.complexity then preAnalysis.metrics.complexity
        else ((aiResult.metrics.map ReviewMetrics.totalFiles).getD 0),
      linesAnalyzed := aiResult.metrics.bind ReviewMetrics.linesAnalyzed,
      issuesFound := allIssues.length,
      criticalIssues := (allIssues.filter fun i => i.severity == Severity.critical).length,
      securityIssues := (allIssues.filter fun i => i.type == IssueType.security).length,
      performanceIssues := (allIssues.filter fun i => i.type == IssueType.performance).length }
  let adjustedScore :=
    if 50 < preAnalysis.riskScore then
      max 1 (aiResult.score - ((⌊(preAnalysis.riskScore : ℚ) / 20⌋ : ℤ) : ℚ))
    else aiResult.score
  { summary := aiResult.summary ++ " Pre-analysis detected " ++
      toString preAnalysis.patterns.length ++ " patterns with risk score " ++
      toString preAnalysis.riskScore ++ "/100.",
    issues := allIssues,
    suggestions := allSuggestions,
    score := adjustedScore,
    metrics := some enhancedMetrics }

end PrReviewer

/-! ## Specification-side definitions

These two definitions follow the words of the specification/claims (not
the source); each is compared against the corresponding source-derived
definition in the theorems below. -/

/-- The risk-score formula as the specification words it: the rounded
weighted sum clamped to the interval `[0, 100]`. -/
def riskScoreSpec (patterns : List DetectedPattern) (metrics : CodeMetrics) : ℤ :=
  max 0 (min 100 (round ((ReviewAnalysisEngine.patternScore patterns : ℚ) +
    (metrics.complexity : ℚ) * 0.2 + (metrics.technicalDebt : ℚ) * 0.3 +
    (metrics.securityRisk : ℚ) * 0.5)))

/-- The required-field validation as claim C5 words it: `summary` must be
a string (rather than merely truthy), `issues`/`suggestions` list-shaped,
`score` a number. -/
def validPayloadSpec (parsed : Json) : Bool :=
  (match parsed.lookup ("summary") with | some (.str _) => true | _ => false) &&
  jsIsArray (parsed.lookup ("issues")) &&
  jsIsArray (parsed.lookup ("suggestions")) &&
  PrReviewer.jsIsNum (parsed.lookup ("score"))

/-! ## Concrete inputs used by counterexamples, failing inputs and witnesses -/

/-- A change set with one TypeScript file whose two added lines each
contain an `if`, so the aggregated complexity metric is `1 + 2 = 3` while
the change set has exactly one file. -/
def changes1 : GitChanges :=
  { baseBranch := "main", currentBranch := "dev",
    files := [{ path := "a.ts", status := "modified", additions := 2, deletions := 0,
                patch := some "+if (a) \x7b\n+if (b) \x7b" }],
    commits := [], stats := { insertions := 2, deletions := 0, filesChanged := 1 } }

/-- A change set with one Python file whose added text is a bare
`except:` clause. -/
def pyChanges : GitChanges :=
  { baseBranch := "main", currentBranch := "dev",
    files := [{ path := "app.py", status := "modified", additions := 1, deletions := 0,
                patch := some "+except:" }],
    commits := [], stats := { insertions := 1, deletions := 0, filesChanged := 1 } }

/-- The Python file of `pyChanges`. -/
def pyFile : FileChange :=
  { path := "app.py", status := "modified", additions := 1, deletions := 0,
    patch := some "+except:" }

/-- A TypeScript file whose patch consists only of the `+++` file-header
line, whose text happens to contain the word `await`. -/
def fileC2 : FileChange :=
  { path := "a.ts", status := "modified", additions := 0, deletions := 0,
    patch := some "+++ b/await.ts" }

/-- One added line holding twenty occurrences of `TODO` (99 characters
once trimmed): the per-line debt rule fires once, contributing 5. -/
def todoLine20 : String :=
  "+TODO TODO TODO TODO TODO TODO TODO TODO TODO TODO TODO TODO TODO TODO TODO TODO TODO TODO TODO TODO"

/-- A change set whose single file adds `todoLine20`. -/
def todoChanges20 : GitChanges :=
  { baseBranch := "main", currentBranch := "dev",
    files := [{ path := "a.ts", status := "modified", additions := 1, deletions := 0,
                patch := some todoLine20 }],
    commits := [], stats := { insertions := 1, deletions := 0, filesChanged := 1 } }

/-- Twenty-one added lines, each containing one `TODO`: raw debt 105. -/
def todoLines21 : List String := List.replicate 21 "+TODO cleanup"

/-- The corresponding patch text. -/
def todoPatch21 : String := String.intercalate "\n" todoLines21

/-- A change set whose single file adds the 21 `TODO` lines. -/
def todoChanges21 : GitChanges :=
  { baseBranch := "main", currentBranch := "dev",
    files := [{ path := "a.ts", status := "modified", additions := 21, deletions := 0,
                patch := some todoPatch21 }],
    commits := [], stats := { insertions := 21, deletions := 0, filesChanged := 1 } }

/-- A payload whose `summary` is the number `7` (truthy but not a
string), with well-shaped `issues`, `suggestions` and `score`. -/
def payload5 : Json :=
  .obj [("summary", .num 7), ("issues", .arr []), ("suggestions", .arr []),
        ("score", .num 3)]

/-- A payload whose `summary` is the empty string, with well-shaped
`issues`, `suggestions` and `score`. -/
def payload10 : Json :=
  .obj [("summary", .str ""), ("issues", .arr []), ("suggestions", .arr []),
        ("score", .num 7)]

/-- An AI review result used to instantiate the merge theorems. -/
def aiW : ReviewResult :=
  { summary := "Looks fine.", issues := [], suggestions := [], score := 8, metrics := none }

/-- A deterministic analysis with risk score 60 (above the adjustment
threshold). -/
def preW : AnalysisResult :=
  { patterns := [], metrics := ⟨0, 0, 0, 0, 0⟩, riskScore := 60, recommendations := [] }

/-! ## Supporting lemmas -/

/-- Every string contains its own first twenty characters. -/
theorem strIncludes_take20_self (s : String) : strIncludes s (strTake20 s) = true := by
  unfold strIncludes strTake20
  rw [decide_eq_true_eq]
  exact ⟨[], s.data.drop 20, by simp⟩

/-- An issue already in the list is detected as a duplicate of itself. -/
theorem isDuplicateOf_self_mem {issues : List ReviewIssue} {p : ReviewIssue}
    (hp : p ∈ issues) : PrReviewer.isDuplicateOf issues p = true := by
  unfold PrReviewer.isDuplicateOf
  rw [List.any_eq_true]
  exact ⟨p, hp, by simp [strIncludes_take20_self]⟩

/-- Duplicate detection is monotone in the accumulated list. -/
theorem isDuplicateOf_mono {l l' : List ReviewIssue} {p : ReviewIssue}
    (h : PrReviewer.isDuplicateOf l p = true) (hsub : ∀ x ∈ l, x ∈ l') :
    PrReviewer.isDuplicateOf l' p = true := by
  unfold PrReviewer.isDuplicateOf at h ⊢
  rw [List.any_eq_true] at h ⊢
  obtain ⟨x, hx, hpred⟩ := h
  exact ⟨x, hsub x hx, hpred⟩

/-- Unfolding one step of the merge loop. -/
theorem mergeIssueList_cons (base : List ReviewIssue) (p : ReviewIssue)
    (ps : List ReviewIssue) :
    PrReviewer.mergeIssueList base (p :: ps) =
      PrReviewer.mergeIssueList
        (if PrReviewer.isDuplicateOf base p then base else base ++ [p]) ps := rfl

/-- The merge loop only appends: the base stays in the result. -/
theorem mem_mergeIssueList_of_mem_base {x : ReviewIssue} :
    ∀ (ps base : List ReviewIssue), x ∈ base → x ∈ PrReviewer.mergeIssueList base ps := by
  intro ps
  induction ps with
  | nil => intro base hx; exact hx
  | cons p rest ih =>
      intro base hx
      rw [mergeIssueList_cons]
      apply ih
      by_cases hdup : PrReviewer.isDuplicateOf base p
      · simpa [hdup]
      · simp [hdup]
        exact Or.inl hx

/-- After the merge loop, every processed issue is a duplicate of
something in the result (either of its own appended copy, or of the
issue that suppressed it). -/
theorem isDuplicateOf_mergeIssueList :
    ∀ (ps base : List ReviewIssue), ∀ p ∈ ps,
      PrReviewer.isDuplicateOf (PrReviewer.mergeIssueList base ps) p = true := by
  intro ps
  induction ps with
  | nil => intro base p hp; cases hp
  | cons p0 rest ih =>
      intro base p hp
      rw [mergeIssueList_cons]
      rcases List.mem_cons.mp hp with rfl | hmem
      · by_cases hdup : PrReviewer.isDuplicateOf base p
        · exact isDuplicateOf_mono hdup
            (fun x hx => mem_mergeIssueList_of_mem_base rest _ (by simp [hdup, hx]))
        · have hself : PrReviewer.isDuplicateOf (base ++ [p]) p = true :=
            isDuplicateOf_self_mem (by simp)
          exact isDuplicateOf_mono hself
            (fun x hx => mem_mergeIssueList_of_mem_base rest _ (by simp [hdup]; simpa using hx))
      · exact ih _ p hmem

/-- If everything to merge is already a duplicate, the loop is the identity. -/
theorem mergeIssueList_eq_of_all_dup :
    ∀ (ps base : List ReviewIssue),
      (∀ p ∈ ps, PrReviewer.isDuplicateOf base p = true) →
      PrReviewer.mergeIssueList base ps = base := by
  intro ps
  induction ps with
  | nil => intro base _; rfl
  | cons p0 rest ih =>
      intro base h
      rw [mergeIssueList_cons, if_pos (h p0 (by simp))]
      exact ih base (fun p hp => h p (by simp [hp]))

/-- The issue list of a merge is the merge loop over the projections. -/
theorem merge_issues_eq (ai : ReviewResult) (pre : AnalysisResult) :
    (PrReviewer.mergeAnalysisResults ai pre).issues =
      PrReviewer.mergeIssueList ai.issues (pre.patterns.map PrReviewer.projectIssue) := rfl

/-- Claim C8: merging the same analysis twice yields the same number of
issues as merging it once — every heuristic issue projected in the second
pass is a duplicate (of its own first-pass copy or of the issue that
suppressed it) and is dropped. -/
theorem c8_merge_idempotent_issue_count (ai : ReviewResult) (pre : AnalysisResult) :
    (PrReviewer.mergeAnalysisResults (PrReviewer.mergeAnalysisResults ai pre) pre).issues.length =
      (PrReviewer.mergeAnalysisResults ai pre).issues.length := by
  rw [merge_issues_eq (PrReviewer.mergeAnalysisResults ai pre) pre, merge_issues_eq ai pre]
  rw [mergeIssueList_eq_of_all_dup _ _ (fun p hp => ?_)]
  rw [← merge_issues_eq ai pre]
  rw [merge_issues_eq ai pre]
  exact isDuplicateOf_mergeIssueList _ _ p hp

/-- The merged score in the high-risk branch. -/
theorem merge_score_high (ai : ReviewResult) (pre : AnalysisResult)
    (h : 50 < pre.riskScore) :
    (PrReviewer.mergeAnalysisResults ai pre).score =
      max 1 (ai.score - ((⌊(pre.riskScore : ℚ) / 20⌋ : ℤ) : ℚ)) := by
  unfold PrReviewer.mergeAnalysisResults
  simp only [h, if_true]

/-- Above the threshold, the subtracted floor is at least 2. -/
theorem floor_riskDiv20_ge_two {r : Nat} (h : 50 < r) :
    (2 : ℚ) ≤ ((⌊(r : ℚ) / 20⌋ : ℤ) : ℚ) := by
  have h2 : (2 : ℤ) ≤ ⌊(r : ℚ) / 20⌋ := by
    rw [Int.le_floor]
    rw [le_div_iff₀ (by norm_num : (0:ℚ) < 20)]
    push_cast
    have : (51 : ℚ) ≤ (r : ℚ) := by exact_mod_cast h
    linarith
  exact_mod_cast h2

/-- Claim C9: above risk 50, re-merging subtracts `⌊riskScore/20⌋` from
the score again, bounded below by 1; while the score is above 1 it
strictly decreases on each re-application, and once it reaches 1 it stays
there. -/
theorem c9_score_strictly_decreases (ai : ReviewResult) (pre : AnalysisResult)
    (h : 50 < pre.riskScore) :
    (PrReviewer.mergeAnalysisResults (PrReviewer.mergeAnalysisResults ai pre) pre).score =
      max 1 ((PrReviewer.mergeAnalysisResults ai pre).score -
        ((⌊(pre.riskScore : ℚ) / 20⌋ : ℤ) : ℚ)) ∧
    (1 < (PrReviewer.mergeAnalysisResults ai pre).score →
      (PrReviewer.mergeAnalysisResults (PrReviewer.mergeAnalysisResults ai pre) pre).score <
        (PrReviewer.mergeAnalysisResults ai pre).score) ∧
    ((PrReviewer.mergeAnalysisResults ai pre).score = 1 →
      (PrReviewer.mergeAnalysisResults (PrReviewer.mergeAnalysisResults ai pre) pre).score = 1) := by
  have hc := floor_riskDiv20_ge_two h
  have hmain := merge_score_high (PrReviewer.mergeAnalysisResults ai pre) pre h
  refine ⟨hmain, ?_, ?_⟩
  · intro hgt
    rw [hmain]
    rw [max_lt_iff]
    exact ⟨hgt, sub_lt_self _ (by linarith)⟩
  · intro h1
    rw [hmain, h1]
    rw [max_eq_left]
    linarith

/-- Witness for C9 at a concrete merge input with risk score 60. -/
theorem c9_witness :
    50 < preW.riskScore ∧
    ((PrReviewer.mergeAnalysisResults (PrReviewer.mergeAnalysisResults aiW preW) preW).score =
      max 1 ((PrReviewer.mergeAnalysisResults aiW preW).score -
        ((⌊(preW.riskScore : ℚ) / 20⌋ : ℤ) : ℚ)) ∧
    (1 < (PrReviewer.mergeAnalysisResults aiW preW).score →
      (PrReviewer.mergeAnalysisResults (PrReviewer.mergeAnalysisResults aiW preW) preW).score <
        (PrReviewer.mergeAnalysisResults aiW preW).score) ∧
    ((PrReviewer.mergeAnalysisResults aiW preW).score = 1 →
      (PrReviewer.mergeAnalysisResults (PrReviewer.mergeAnalysisResults aiW preW) preW).score = 1)) :=
  ⟨by decide, c9_score_strictly_decreases aiW preW (by decide)⟩

/-- The parsed score always lands in `[1, 10]`. -/
theorem parse_score_bounds (decode : String → Option Json) (response : String)
    (changes : GitChanges) :
    1 ≤ (PrReviewer.parseReviewResponse decode response changes).score ∧
      (PrReviewer.parseReviewResponse decode response changes).score ≤ 10 := by
  unfold PrReviewer.parseReviewResponse
  cases (PrReviewer.extractJsonCandidate response).bind decode with
  | none => exact ⟨by norm_num [PrReviewer.fallbackReview], by norm_num [PrReviewer.fallbackReview]⟩
  | some parsed =>
      by_cases hv : PrReviewer.validPayload parsed
      · simp only [hv, if_true]
        constructor
        · exact le_max_left _ _
        · exact max_le (by norm_num) (min_le_left _ _)
      · simp only [hv, if_false]
        exact ⟨by norm_num [PrReviewer.fallbackReview], by norm_num [PrReviewer.fallbackReview]⟩

/-- The merge adjustment keeps a `[1, 10]` score inside `[1, 10]`. -/
theorem merge_score_bounds (ai : ReviewResult) (pre : AnalysisResult)
    (h1 : 1 ≤ ai.score) (h10 : ai.score ≤ 10) :
    1 ≤ (PrReviewer.mergeAnalysisResults ai pre).score ∧
      (PrReviewer.mergeAnalysisResults ai pre).score ≤ 10 := by
  unfold PrReviewer.mergeAnalysisResults
  dsimp only
  by_cases h : 50 < pre.riskScore
  · simp only [h, if_true]
    have hc : (0 : ℚ) ≤ ((⌊(pre.riskScore : ℚ) / 20⌋ : ℤ) : ℚ) := by
      have : (0 : ℤ) ≤ ⌊(pre.riskScore : ℚ) / 20⌋ :=
        Int.floor_nonneg.mpr (by positivity)
      exact_mod_cast this
    exact ⟨le_max_left _ _, max_le (by norm_num) (by linarith)⟩
  · simp only [h, if_false]
    exact ⟨h1, h10⟩

/-- Claim C6: the fused score lies in `[1, 10]` — the parse step clamps
the AI score into the range (with fallback 5), and the merge adjustment
never lowers it below 1. -/
theorem c6_fused_score_in_range (decode : String → Option Json) (response : String)
    (changes : GitChanges) (pre : AnalysisResult) :
    (1 ≤ (PrReviewer.parseReviewResponse decode response changes).score ∧
      (PrReviewer.parseReviewResponse decode response changes).score ≤ 10) ∧
    1 ≤ (PrReviewer.mergeAnalysisResults
          (PrReviewer.parseReviewResponse decode response changes) pre).score ∧
    (PrReviewer.mergeAnalysisResults
          (PrReviewer.parseReviewResponse decode response changes) pre).score ≤ 10 := by
  have hp := parse_score_bounds decode response changes
  exact ⟨hp, merge_score_bounds _ pre hp.1 hp.2⟩

/-- Claim C4: the Risk Scorer returns exactly the rounded weighted sum
clamped to `[0, 100]`, with weights critical 25, high 15, medium 8, low 3. -/
theorem c4_riskScore_matches_spec (patterns : List DetectedPattern) (metrics : CodeMetrics) :
    (ReviewAnalysisEngine.calculateRiskScore patterns metrics : ℤ) =
      riskScoreSpec patterns metrics ∧
    ReviewAnalysisEngine.severityWeight .critical = 25 ∧
    ReviewAnalysisEngine.severityWeight .high = 15 ∧
    ReviewAnalysisEngine.severityWeight .medium = 8 ∧
    ReviewAnalysisEngine.severityWeight .low = 3 := by
  refine ⟨?_, rfl, rfl, rfl, rfl⟩
  unfold ReviewAnalysisEngine.calculateRiskScore riskScoreSpec
  have hq : (0 : ℚ) ≤ (ReviewAnalysisEngine.patternScore patterns : ℚ) +
      (metrics.complexity : ℚ) * 0.2 + (metrics.technicalDebt : ℚ) * 0.3 +
      (metrics.securityRisk : ℚ) * 0.5 := by positivity
  have hr : (0 : ℤ) ≤ round ((ReviewAnalysisEngine.patternScore patterns : ℚ) +
      (metrics.complexity : ℚ) * 0.2 + (metrics.technicalDebt : ℚ) * 0.3 +
      (metrics.securityRisk : ℚ) * 0.5) := by
    rw [round_eq]
    exact Int.floor_nonneg.mpr (by linarith)
  have hmin : (0 : ℤ) ≤ min 100 (round ((ReviewAnalysisEngine.patternScore patterns : ℚ) +
      (metrics.complexity : ℚ) * 0.2 + (metrics.technicalDebt : ℚ) * 0.3 +
      (metrics.securityRisk : ℚ) * 0.5)) := le_min (by norm_num) hr
  rw [max_eq_right hmin, Int.toNat_of_nonneg hmin]

/-- Claim C7 (amended): every metrics field and the risk score are
clamped into `[0, 100]`; a file whose 21 added lines each contain `TODO`
accumulates a raw debt of 105 and contributes the clamped 100 (the debt
rule scores per line containing a marker, not per occurrence). -/
theorem c7_metrics_clamped (changes : GitChanges) :
    ((ReviewAnalysisEngine.calculateMetrics changes).complexity ≤ 100 ∧
     (ReviewAnalysisEngine.calculateMetrics changes).testCoverage ≤ 100 ∧
     (ReviewAnalysisEngine.calculateMetrics changes).duplicateCode ≤ 100 ∧
     (ReviewAnalysisEngine.calculateMetrics changes).technicalDebt ≤ 100 ∧
     (ReviewAnalysisEngine.calculateMetrics changes).securityRisk ≤ 100 ∧
     (ReviewAnalysisEngine.analyzeChanges changes).riskScore ≤ 100) ∧
    ReviewAnalysisEngine.calculateTechnicalDebt todoLines21 = 105 ∧
    (ReviewAnalysisEngine.calculateMetrics todoChanges21).technicalDebt = 100 := by
  refine ⟨⟨?_, ?_, ?_, ?_, ?_, ?_⟩, by decide, by decide⟩
  · exact min_le_left _ _
  · exact min_le_left _ _
  · exact min_le_left _ _
  · exact min_le_left _ _
  · exact min_le_left _ _
  · show (ReviewAnalysisEngine.calculateRiskScore _ _) ≤ 100
    unfold ReviewAnalysisEngine.calculateRiskScore
    rw [Int.toNat_le]
    exact le_trans (min_le_left _ _) (by norm_num)

/-- Counterexample to claim C7 as stated: a single added line containing
twenty occurrences of `TODO` contributes 5 (the rule fires once per line),
not the claimed clamped 100. -/
theorem c7_counterexample :
    (ReviewAnalysisEngine.calculateMetrics todoChanges20).technicalDebt = 5 ∧
    (ReviewAnalysisEngine.calculateMetrics todoChanges20).technicalDebt ≠ 100 := by
  decide

/-- Claim C1 (code bug): merging the fallback AI result for `changes1`
(one file, two inserted lines) with its own deterministic analysis
produces `totalFiles = 3` — the heuristic complexity metric — although
the change set holds exactly one file. -/
theorem c1_totalFiles_takes_complexity :
    (PrReviewer.mergeAnalysisResults
        (PrReviewer.parseReviewResponse (fun _ => none) "no json here" changes1)
        (ReviewAnalysisEngine.analyzeChanges changes1)).metrics =
      some { totalFiles := 3, linesAnalyzed := some 2, issuesFound := 0,
             criticalIssues := 0, securityIssues := 0, performanceIssues := 0 } ∧
    (ReviewAnalysisEngine.analyzeChanges changes1).metrics.complexity = 3 ∧
    changes1.files.length = 1 := by
  decide

/-- Claim C2 (amended): each JavaScript-family and configuration
specializer check operates on the newline-join of the patch lines that
begin with `+` — with the `+++` file-header line included and the leading
`+` retained — not on the Diff Normalizer output. -/
theorem c2_specializer_text (file : FileChange) :
    ReviewAnalysisEngine.analyzeJavaScriptFile file =
      ReviewAnalysisEngine.javaScriptChecks
        (ReviewAnalysisEngine.specializerText file.patch) file ∧
    ReviewAnalysisEngine.analyzeConfigFile file =
      ReviewAnalysisEngine.configChecks
        (ReviewAnalysisEngine.specializerText file.patch) file := by
  obtain ⟨path, status, additions, deletions, patch⟩ := file
  cases patch <;> exact ⟨rfl, rfl⟩

/-- Counterexample to claim C2 as stated: on a patch consisting only of
the `+++` header line (which contains the word `await`), the JavaScript
specializer fires the await-without-async rule, while the same checks on
the Diff Normalizer output (empty text) fire nothing. -/
theorem c2_counterexample :
    ReviewAnalysisEngine.analyzeJavaScriptFile fileC2 ≠
      ReviewAnalysisEngine.javaScriptChecks
        (ReviewAnalysisEngine.addedCodeOf "+++ b/await.ts") fileC2 ∧
    ReviewAnalysisEngine.addedCodeOf "+++ b/await.ts" = "" := by
  decide

/-- Claim C3 (amended): the current engine performs no file-specific
analysis at all for `py` files — its dispatch covers only the
`ts/tsx/js/jsx` and `json/yaml/yml/env` extensions. -/
theorem c3_no_python_specializer (file : FileChange)
    (h : ReviewAnalysisEngine.fileExtension file.path = "py") :
    ReviewAnalysisEngine.analyzeFileSpecific file = [] := by
  obtain ⟨path, status, additions, deletions, patch⟩ := file
  unfold ReviewAnalysisEngine.analyzeFileSpecific
  cases patch with
  | none => rfl
  | some p =>
      dsimp only at h ⊢
      rw [h]
      have h1 : (["ts", "tsx", "js", "jsx"].contains "py") = false := by decide
      have h2 : (["json", "yaml", "yml", "env"].contains "py") = false := by decide
      simp [h1, h2]

/-- Witness for C3 at the concrete Python file. -/
theorem c3_witness :
    ReviewAnalysisEngine.fileExtension pyFile.path = "py" ∧
    ReviewAnalysisEngine.analyzeFileSpecific pyFile = [] :=
  ⟨by decide, c3_no_python_specializer pyFile (by decide)⟩

/-- Counterexample to claim C3 as stated: the change set with one `py`
file whose added text is a bare `except:` produces no detected pattern at
all — in particular no bug/medium one. -/
theorem c3_counterexample :
    ¬ ∃ p ∈ ReviewAnalysisEngine.detectPatterns pyChanges,
        p.type = IssueType.bug ∧ p.severity = Severity.medium := by
  decide

/-- Claim C5 (amended): whenever the response text yields no decoded
payload, or the decoded payload fails the implemented validation
(`summary` truthy, `issues`/`suggestions` arrays, `score` a number), the
parse step returns the fixed fallback: the generic summary, no issues,
exactly three fixed suggestions, score 5, and change-set metrics with all
issue counts at zero.  The embedded function is total, so no such input
throws. -/
theorem c5_invalid_payload_fallback (decode : String → Option Json) (response : String)
    (changes : GitChanges)
    (h : ∀ v, (PrReviewer.extractJsonCandidate response).bind decode = some v →
      PrReviewer.validPayload v = false) :
    PrReviewer.parseReviewResponse decode response changes =
      PrReviewer.fallbackReview changes ∧
    (PrReviewer.fallbackReview changes).score = 5 ∧
    (PrReviewer.fallbackReview changes).issues = [] ∧
    (PrReviewer.fallbackReview changes).suggestions.length = 3 ∧
    (PrReviewer.fallbackReview changes).metrics = some
      { totalFiles := changes.files.length,
        linesAnalyzed := some (changes.stats.insertions + changes.stats.deletions),
        issuesFound := 0, criticalIssues := 0, securityIssues := 0,
        performanceIssues := 0 } := by
  refine ⟨?_, rfl, rfl, rfl, rfl⟩
  unfold PrReviewer.parseReviewResponse
  cases hd : (PrReviewer.extractJsonCandidate response).bind decode with
  | none => rfl
  | some parsed =>
      dsimp only
      rw [h parsed hd]
      rfl

/-- Witness for C5 at the specification's example input (plain refusal
text, no JSON object anywhere). -/
theorem c5_witness :
    (∀ v, (PrReviewer.extractJsonCandidate "I cannot help with that request.").bind
        (fun _ => none) = some v → PrReviewer.validPayload v = false) ∧
    PrReviewer.parseReviewResponse (fun _ => none) "I cannot help with that request."
        changes1 = PrReviewer.fallbackReview changes1 := by
  have h : ∀ v, (PrReviewer.extractJsonCandidate "I cannot help with that request.").bind
      (fun _ : String => (none : Option Json)) = some v →
      PrReviewer.validPayload v = false := by
    intro v hv
    have he : PrReviewer.extractJsonCandidate "I cannot help with that request." = none := by
      decide
    rw [he] at hv
    simp at hv
  exact ⟨h, (c5_invalid_payload_fallback _ _ changes1 h).1⟩

/-- Counterexample to claim C5 as stated: a payload whose `summary` is
the number 7 fails the claimed validation (`summary` must be a string),
yet the parse step accepts it and returns a non-fallback result. -/
theorem c5_counterexample :
    validPayloadSpec payload5 = false ∧
    PrReviewer.parseReviewResponse (fun _ => some payload5) "\x7b\x7d" changes1 ≠
      PrReviewer.fallbackReview changes1 := by
  decide

/-- Claim C10: a payload with an empty-string `summary` and otherwise
well-shaped fields is rejected by the truthiness test and yields the
fixed fallback. -/
theorem c10_empty_summary_fallback (decode : String → Option Json) (response : String)
    (changes : GitChanges) (parsed : Json)
    (hdec : (PrReviewer.extractJsonCandidate response).bind decode = some parsed)
    (hsum : parsed.lookup ("summary") = some (.str ""))
    (hiss : jsIsArray (parsed.lookup ("issues")) = true)
    (hsug : jsIsArray (parsed.lookup ("suggestions")) = true)
    (hsc : PrReviewer.jsIsNum (parsed.lookup ("score")) = true) :
    PrReviewer.parseReviewResponse decode response changes =
      PrReviewer.fallbackReview changes := by
  unfold PrReviewer.parseReviewResponse
  rw [hdec]
  have hv : PrReviewer.validPayload parsed = false := by
    unfold PrReviewer.validPayload
    rw [hsum]
    simp [jsTruthy]
  dsimp only
  rw [hv]
  rfl

/-- Witness for C10 at the concrete empty-summary payload. -/
theorem c10_witness :
    (PrReviewer.extractJsonCandidate "\x7b\x7d").bind (fun _ => some payload10) =
      some payload10 ∧
    payload10.lookup ("summary") = some (.str "") ∧
    PrReviewer.parseReviewResponse (fun _ => some payload10) "\x7b\x7d" changes1 =
      PrReviewer.fallbackReview changes1 :=
  ⟨rfl, rfl,
    c10_empty_summary_fallback (fun _ => some payload10) "\x7b\x7d" changes1 payload10
      rfl rfl rfl rfl rfl⟩
